import Mathlib

/-!
Verification of `src/iotex_price_bot.py` (IoTeX price alert bot).

Shallow embedding conventions:
* Python floats carrying prices are modelled as rationals (`ℚ`); none of
  the properties verified here depend on binary floating-point rounding.
* Dictionaries returned by the two price fetchers are modelled as the
  structure `PriceData`; optional JSON fields are `Option` values and the
  Python `dict.get(k, 0)` defaulting is `Option.getD _ 0`.
* Fallible operations (HTTP fetch, JSON parse) return `Option` or a small
  outcome type; an exception caught inside a method is a `none` result,
  matching the `try/except ... return None` structure of the source.
* The mutable fields `previous_price` and `price_history` of the bot are
  the explicit state `BotState`, threaded through `run_price_check`.
-/

/-- One entry of `self.price_history`: the dict
`{timestamp, price, source}` appended in `run_price_check`. -/
structure HistoryEntry where
  timestamp : String
  price : ℚ
  source : String
deriving DecidableEq, Repr

/-- The mutable state of `IoTeXPriceBot`: `self.previous_price`
(initially `None`) and `self.price_history` (initially `[]`). -/
structure BotState where
  previous_price : Option ℚ
  price_history : List HistoryEntry
deriving DecidableEq, Repr

/-- The price dict built by `get_iotex_price_coingecko` /
`get_iotex_price_dia`: keys `price`, `market_cap`, `volume_24h`,
`change_24h`, `last_updated`, `source`. -/
structure PriceData where
  price : ℚ
  market_cap : ℚ
  volume_24h : ℚ
  change_24h : ℚ
  last_updated : ℤ
  source : String
deriving DecidableEq, Repr

/-- The dict returned by `calculate_price_change`: keys
`change_amount`, `change_percentage`, `trend` (the trend is one of the
strings `up`, `down`, `neutral`, exactly as in the source). -/
structure ChangeData where
  change_amount : ℚ
  change_percentage : ℚ
  trend : String
deriving DecidableEq, Repr

/-- `IoTeXPriceBot.calculate_price_change` (src/iotex_price_bot.py:138-169).
Takes `self.previous_price` explicitly.  Mirrors the source:

    if self.previous_price is None:
        return (change_amount 0, change_percentage 0, trend neutral)
    change_amount = current_price - self.previous_price
    change_percentage = (change_amount / self.previous_price) * 100
                        if self.previous_price > 0 else 0
    trend = up / down / neutral by the sign of change_amount
-/
def calculate_price_change (previous_price : Option ℚ) (current_price : ℚ) :
    ChangeData :=
  match previous_price with
  | none =>
    { change_amount := 0, change_percentage := 0, trend := "neutral" }
  | some prev =>
    let change_amount := current_price - prev
    let change_percentage := if prev > 0 then (change_amount / prev) * 100 else 0
    let trend :=
      if change_amount > 0 then "up"
      else if change_amount < 0 then "down"
      else "neutral"
    { change_amount := change_amount,
      change_percentage := change_percentage,
      trend := trend }

/-- Outcome of one HTTP GET as seen by the fetchers.  `transportError`
covers `requests.exceptions.RequestException`, which includes connection
errors, timeouts, and the `HTTPError` raised by `raise_for_status()` on a
non-2xx status; `parseError` covers `json.JSONDecodeError` from
`response.json()`; `success` carries the decoded JSON body. -/
inductive FetchOutcome (α : Type) where
  | transportError
  | parseError
  | success (body : α)
deriving DecidableEq, Repr

/-- The fields the CoinGecko response may carry under its `iotex` key;
each is optional, and the source reads them with `.get(key, 0)`. -/
structure IotexFields where
  usd : Option ℚ
  usd_market_cap : Option ℚ
  usd_24h_vol : Option ℚ
  usd_24h_change : Option ℚ
  last_updated_at : Option ℤ
deriving DecidableEq, Repr

/-- A CoinGecko JSON body: `none` models a decoded object with no
`iotex` key (the `if iotex in data` check fails), `some f` a body whose
`iotex` entry has fields `f`. -/
abbrev CoinGeckoBody := Option IotexFields

/-- A DIA JSON body.  `price = none` models an object without the
`Price` key (the `if Price in data` check fails);
`volumeYesterdayUSD` is the optional `VolumeYesterdayUSD` field. -/
structure DiaBody where
  price : Option ℚ
  volumeYesterdayUSD : Option ℚ
deriving DecidableEq, Repr

/-- `IoTeXPriceBot.get_iotex_price_coingecko`
(src/iotex_price_bot.py:45-83).  Any caught exception and a body without
the `iotex` key give `None`; otherwise the price dict is built with
`.get(_, 0)` defaults and source tag `CoinGecko`. -/
def get_iotex_price_coingecko (resp : FetchOutcome CoinGeckoBody) :
    Option PriceData :=
  match resp with
  | .transportError => none
  | .parseError => none
  | .success none => none
  | .success (some iotex_data) =>
    some { price := iotex_data.usd.getD 0,
           market_cap := iotex_data.usd_market_cap.getD 0,
           volume_24h := iotex_data.usd_24h_vol.getD 0,
           change_24h := iotex_data.usd_24h_change.getD 0,
           last_updated := iotex_data.last_updated_at.getD 0,
           source := "CoinGecko" }

/-- `IoTeXPriceBot.get_iotex_price_dia` (src/iotex_price_bot.py:85-115).
`now` stands for `int(time.time())`.  Market cap and 24h change are hard
zeros in the source (DIA does not provide them); source tag is `DIA`. -/
def get_iotex_price_dia (resp : FetchOutcome DiaBody) (now : ℤ) :
    Option PriceData :=
  match resp with
  | .transportError => none
  | .parseError => none
  | .success data =>
    match data.price with
    | none => none
    | some p =>
      some { price := p,
             market_cap := 0,
             volume_24h := data.volumeYesterdayUSD.getD 0,
             change_24h := 0,
             last_updated := now,
             source := "DIA" }

/-- `IoTeXPriceBot.get_current_price` (src/iotex_price_bot.py:117-136):
CoinGecko first, DIA as fallback, `None` when both fail.  The two HTTP
responses the cycle would observe are passed in as `cg` and `dia`. -/
def get_current_price (cg : FetchOutcome CoinGeckoBody)
    (dia : FetchOutcome DiaBody) (now : ℤ) : Option PriceData :=
  match get_iotex_price_coingecko cg with
  | some price_data => some price_data
  | none => get_iotex_price_dia dia now

/-- `get_current_price` instrumented with the list of sources attempted,
in order: CoinGecko is always attempted; DIA is attempted exactly when
the CoinGecko attempt produced `None`. -/
def get_current_price_trace (cg : FetchOutcome CoinGeckoBody)
    (dia : FetchOutcome DiaBody) (now : ℤ) :
    Option PriceData × List String :=
  match get_iotex_price_coingecko cg with
  | some price_data => (some price_data, ["CoinGecko"])
  | none => (get_iotex_price_dia dia now, ["CoinGecko", "DIA"])

/-- Exactly six decimal digits of `n` (most significant first), i.e. the
fractional part printed by a fixed-point conversion with precision 6;
meaningful for `n < 10^6`. -/
def fracDigits6 (n : ℕ) : String :=
  String.mk [Nat.digitChar (n / 100000 % 10), Nat.digitChar (n / 10000 % 10),
             Nat.digitChar (n / 1000 % 10), Nat.digitChar (n / 100 % 10),
             Nat.digitChar (n / 10 % 10), Nat.digitChar (n % 10)]

/-- The fixed-point conversion `f"{x:.6f}"` of Python on a price
modelled as a rational: round to six decimal places and print sign,
integer part, a dot, and exactly six fractional digits.  (CPython
rounds the underlying double half-to-even; no property below depends on
tie behaviour, and no price in this development sits on a tie.) -/
def formatFixed6 (q : ℚ) : String :=
  let scaled : ℤ := round (q * 1000000)
  (if scaled < 0 then "-" else "")
    ++ toString (scaled.natAbs / 1000000)
    ++ "." ++ fracDigits6 (scaled.natAbs % 1000000)

/-- `IoTeXPriceBot.format_price_message` (src/iotex_price_bot.py:171-205).
The source reads `market_cap`, `volume_24h`, `change_24h`, `source` from
the snapshot and computes trend / 24h-change emoji from `change_data`,
but none of those values reach the returned string: the message is the
f-string `f"${current_price:.6f}"` (the surrounding triple-quote
whitespace is removed by `.strip()`). -/
def format_price_message (price_data : PriceData)
    (change_data : ChangeData) : String :=
  let current_price := price_data.price
  let _market_cap := price_data.market_cap
  let _volume_24h := price_data.volume_24h
  let _change_24h := price_data.change_24h
  let _source := price_data.source
  let _trend := change_data.trend
  "$" ++ formatFixed6 current_price

/-- `IoTeXPriceBot.run_price_check` (src/iotex_price_bot.py:244-282).
The interactions of the cycle with the outside world are passed in:
`cg` and `dia` are the HTTP responses the two fetchers would observe,
`unixNow` is `int(time.time())`, `send` is `send_telegram_message` as a
function from the message text to its success boolean, and `now` is
`datetime.now().isoformat()`.  Returns the success boolean together
with the updated bot state; the source mutates `self.previous_price`
and `self.price_history` only inside `if success:`, and the history is
truncated to its last 100 entries when it exceeds 100
(`self.price_history[-100:]`). -/
def run_price_check (st : BotState) (cg : FetchOutcome CoinGeckoBody)
    (dia : FetchOutcome DiaBody) (unixNow : ℤ) (send : String → Bool)
    (now : String) : Bool × BotState :=
  match get_current_price cg dia unixNow with
  | none => (false, st)
  | some price_data =>
    let current_price := price_data.price
    let change_data := calculate_price_change st.previous_price current_price
    let message := format_price_message price_data change_data
    let success := send message
    if success then
      let history := st.price_history ++
        [{ timestamp := now, price := current_price,
           source := price_data.source : HistoryEntry }]
      let history := if history.length > 100
        then history.drop (history.length - 100) else history
      (true, { previous_price := some current_price,
               price_history := history })
    else (false, st)

/-- The process environment as the effective `main`
(src/iotex_price_bot.py:322-338) reads it: the optional values of the
required variables `TG_TOKEN` and `TG_CHAT_ID`. -/
structure Env where
  tg_token : Option String
  tg_chat_id : Option String
deriving DecidableEq, Repr

/-- The effective `main` (src/iotex_price_bot.py:322-338; the second
`def main` shadows the first).  Result: (exit status, number of HTTP
requests performed).  `os.environ[k]` on a missing key raises
`KeyError` before the `try:` block, so the interpreter exits with
status 1 having sent nothing.  Otherwise one `run_price_check` cycle
runs: `cycleOk` is its boolean result and `cycleRequests` the number of
HTTP requests it performed; a `False` result raises `SystemExit(1)`
(not caught by `except Exception`), a `True` result falls through to a
normal exit with status 0. -/
def main_run (env : Env) (cycleOk : Bool) (cycleRequests : ℕ) : ℕ × ℕ :=
  match env.tg_token with
  | none => (1, 0)
  | some _ =>
    match env.tg_chat_id with
    | none => (1, 0)
    | some _ =>
      if cycleOk then (0, cycleRequests) else (1, cycleRequests)

/-! ### Helper lemmas -/

/-- Evaluation rule for `formatFixed6` once the rounded scaled value is
known. -/
theorem formatFixed6_eval (q : ℚ) (n : ℤ) (h : round (q * 1000000) = n) :
    formatFixed6 q =
      (if n < 0 then "-" else "") ++ toString (n.natAbs / 1000000)
        ++ "." ++ fracDigits6 (n.natAbs % 1000000) := by
  simp only [formatFixed6, h]

/-- A cycle whose fetch returned `None` reports failure and keeps the
state. -/
theorem run_price_check_fetch_none (st : BotState)
    (cg : FetchOutcome CoinGeckoBody) (dia : FetchOutcome DiaBody)
    (unixNow : ℤ) (send : String → Bool) (now : String)
    (h : get_current_price cg dia unixNow = none) :
    run_price_check st cg dia unixNow send now = (false, st) := by
  simp [run_price_check, h]

/-- A cycle whose send returned `False` reports failure and keeps the
state. -/
theorem run_price_check_send_false (st : BotState)
    (cg : FetchOutcome CoinGeckoBody) (dia : FetchOutcome DiaBody)
    (unixNow : ℤ) (send : String → Bool) (now : String) (pd : PriceData)
    (h : get_current_price cg dia unixNow = some pd)
    (hs : send (format_price_message pd
      (calculate_price_change st.previous_price pd.price)) = false) :
    run_price_check st cg dia unixNow send now = (false, st) := by
  simp [run_price_check, h, hs]

/-- A cycle whose send returned `True` reports success, stores the
fetched price as the new previous price, and appends (then possibly
trims) the history. -/
theorem run_price_check_send_true (st : BotState)
    (cg : FetchOutcome CoinGeckoBody) (dia : FetchOutcome DiaBody)
    (unixNow : ℤ) (send : String → Bool) (now : String) (pd : PriceData)
    (e : HistoryEntry)
    (h : get_current_price cg dia unixNow = some pd)
    (hs : send (format_price_message pd
      (calculate_price_change st.previous_price pd.price)) = true)
    (he : e = { timestamp := now, price := pd.price, source := pd.source }) :
    run_price_check st cg dia unixNow send now =
      (true,
       { previous_price := some pd.price,
         price_history :=
           if (st.price_history ++ [e]).length > 100
           then (st.price_history ++ [e]).drop
             ((st.price_history ++ [e]).length - 100)
           else st.price_history ++ [e] }) := by
  subst he
  simp [run_price_check, h, hs]

/-- Behaviour of the append-then-trim history update: the appended
element is last, the result is a suffix of the appended list (eviction
removes oldest elements from the front), and a bound of 100 is
preserved. -/
theorem trim_append_spec {α : Type} (l : List α) (e : α) :
    ((if (l ++ [e]).length > 100
        then (l ++ [e]).drop ((l ++ [e]).length - 100)
        else l ++ [e]).getLast? = some e) ∧
    List.IsSuffix
      (if (l ++ [e]).length > 100
        then (l ++ [e]).drop ((l ++ [e]).length - 100)
        else l ++ [e])
      (l ++ [e]) ∧
    (l.length ≤ 100 →
      (if (l ++ [e]).length > 100
        then (l ++ [e]).drop ((l ++ [e]).length - 100)
        else l ++ [e]).length ≤ 100) := by
  have hle : (l ++ [e]).length - 100 ≤ l.length := by
    simp only [List.length_append, List.length_cons, List.length_nil]
    omega
  refine ⟨?_, ?_, ?_⟩
  · split
    · rw [List.drop_append_of_le_length hle, List.getLast?_concat]
    · exact List.getLast?_concat l
  · split
    · exact List.drop_suffix _ _
    · exact List.suffix_refl _
  · intro hb
    split
    next hlen => simp only [List.length_drop]; omega
    next hlen => omega

/-! ### Claims -/

/-- Claim C1: for every current price and every previous price
`prev > 0`, `calculate_price_change` returns amount `current - prev`,
percentage `(current - prev) / prev * 100`, and trend
`up`/`down`/`neutral` by the sign of the amount; and with no previous
price it returns exactly zero amount, zero percentage, trend
`neutral`. -/
theorem calculate_price_change_spec (current : ℚ) :
    (calculate_price_change none current =
      { change_amount := 0, change_percentage := 0, trend := "neutral" }) ∧
    ∀ prev : ℚ, 0 < prev →
      (calculate_price_change (some prev) current).change_amount
          = current - prev ∧
      (calculate_price_change (some prev) current).change_percentage
          = (current - prev) / prev * 100 ∧
      (calculate_price_change (some prev) current).trend
          = (if 0 < current - prev then "up"
             else if current - prev < 0 then "down" else "neutral") := by
  refine ⟨rfl, fun prev hprev => ⟨?_, ?_, ?_⟩⟩ <;>
    simp [calculate_price_change, hprev]

/-- Witness for C1 at the worked example of the spec: previous `0.025`,
current `0.0275` give amount `0.0025`, percentage `10`, trend `up`. -/
theorem calculate_price_change_spec_witness :
    (calculate_price_change (some (1/40)) (11/400)).change_amount = 1/400 ∧
    (calculate_price_change (some (1/40)) (11/400)).change_percentage = 10 ∧
    (calculate_price_change (some (1/40)) (11/400)).trend = "up" := by
  have h := (calculate_price_change_spec (11/400)).2 (1/40) (by norm_num)
  refine ⟨?_, ?_, ?_⟩
  · rw [h.1]; norm_num
  · rw [h.2.1]; norm_num
  · rw [h.2.2, if_pos (show (0:ℚ) < 11/400 - 1/40 by norm_num)]

/-- Claim C2: with a stored previous price `prev ≤ 0`, the returned
percentage is `0`: the division branch is guarded by
`self.previous_price > 0`, so no division by the stored price happens
unless it is positive. -/
theorem calculate_price_change_no_div_by_zero (current prev : ℚ)
    (hprev : prev ≤ 0) :
    (calculate_price_change (some prev) current).change_percentage = 0 := by
  simp [calculate_price_change, not_lt.mpr hprev]

/-- Witness for C2: previous price `0`, current `3` gives percentage `0`. -/
theorem calculate_price_change_no_div_by_zero_witness :
    (calculate_price_change (some 0) 3).change_percentage = 0 :=
  calculate_price_change_no_div_by_zero 3 0 le_rfl

/-- Claim C10: with stored previous price `0` and a strictly positive
current price, the result has amount equal to the current price,
percentage `0`, and trend `up` (not `neutral`). -/
theorem calculate_price_change_zero_prev (current : ℚ) (hpos : 0 < current) :
    calculate_price_change (some 0) current =
      { change_amount := current, change_percentage := 0, trend := "up" } := by
  simp [calculate_price_change, hpos]

/-- Witness for C10 at current price `2`. -/
theorem calculate_price_change_zero_prev_witness :
    calculate_price_change (some 0) 2 =
      { change_amount := 2, change_percentage := 0, trend := "up" } :=
  calculate_price_change_zero_prev 2 (by norm_num)

/-- Claim C6: the primary source is attempted first and the secondary
exactly when the primary fails (transport error / non-2xx, unparsable
body, or missing `iotex` field — the last equivalence characterises the
failures); each source is attempted at most once; the result is `none`
exactly when both sources fail; and the instrumented trace agrees with
`get_current_price`. -/
theorem get_current_price_fallback (cg : FetchOutcome CoinGeckoBody)
    (dia : FetchOutcome DiaBody) (now : ℤ) :
    (get_current_price_trace cg dia now).1 = get_current_price cg dia now ∧
    ((get_current_price_trace cg dia now).2.head? = some "CoinGecko") ∧
    ((get_current_price_trace cg dia now).2 = ["CoinGecko", "DIA"] ↔
      get_iotex_price_coingecko cg = none) ∧
    (get_iotex_price_coingecko cg ≠ none →
      (get_current_price_trace cg dia now).2 = ["CoinGecko"]) ∧
    ((get_current_price_trace cg dia now).2.count "CoinGecko" ≤ 1) ∧
    ((get_current_price_trace cg dia now).2.count "DIA" ≤ 1) ∧
    (get_current_price cg dia now = none ↔
      get_iotex_price_coingecko cg = none ∧
      get_iotex_price_dia dia now = none) ∧
    (get_iotex_price_coingecko cg = none ↔
      cg = .transportError ∨ cg = .parseError ∨ cg = .success none) := by
  cases cg with
  | transportError =>
    cases h : get_iotex_price_dia dia now <;>
      simp [get_current_price_trace, get_current_price,
        get_iotex_price_coingecko, h]
  | parseError =>
    cases h : get_iotex_price_dia dia now <;>
      simp [get_current_price_trace, get_current_price,
        get_iotex_price_coingecko, h]
  | success body =>
    cases body with
    | none =>
      cases h : get_iotex_price_dia dia now <;>
        simp [get_current_price_trace, get_current_price,
          get_iotex_price_coingecko, h]
    | some f =>
      simp [get_current_price_trace, get_current_price,
        get_iotex_price_coingecko]

/-- Witness for C6: with a CoinGecko response carrying a `usd` field,
only the primary source is attempted. -/
theorem get_current_price_fallback_witness :
    (get_current_price_trace
      (.success (some { usd := some 1, usd_market_cap := none,
                        usd_24h_vol := none, usd_24h_change := none,
                        last_updated_at := none }))
      .transportError 0).2 = ["CoinGecko"] :=
  (get_current_price_fallback
    (.success (some { usd := some 1, usd_market_cap := none,
                      usd_24h_vol := none, usd_24h_change := none,
                      last_updated_at := none }))
    .transportError 0).2.2.2.1 (by simp [get_iotex_price_coingecko])

/-- Claim C7: whenever the primary source fails and `get_current_price`
nevertheless returns a snapshot, that snapshot came from DIA: its source
tag is `DIA` and the fields DIA does not supply (market cap, 24h change)
are `0`. -/
theorem get_current_price_dia_fallback_fields
    (cg : FetchOutcome CoinGeckoBody) (dia : FetchOutcome DiaBody)
    (now : ℤ) (pd : PriceData)
    (hfail : get_iotex_price_coingecko cg = none)
    (hok : get_current_price cg dia now = some pd) :
    pd.source = "DIA" ∧ pd.market_cap = 0 ∧ pd.change_24h = 0 := by
  rw [get_current_price, hfail] at hok
  cases dia with
  | transportError => simp [get_iotex_price_dia] at hok
  | parseError => simp [get_iotex_price_dia] at hok
  | success data =>
    cases hp : data.price with
    | none => rw [get_iotex_price_dia, hp] at hok; simp at hok
    | some p =>
      rw [get_iotex_price_dia, hp] at hok
      simp only [Option.some.injEq] at hok
      rw [← hok]
      exact ⟨rfl, rfl, rfl⟩

/-- Witness for C7: CoinGecko times out, DIA answers with price `1` and
no volume field. -/
theorem get_current_price_dia_fallback_fields_witness :
    ∃ pd : PriceData,
      get_current_price .transportError
        (.success { price := some 1, volumeYesterdayUSD := none }) 0
        = some pd ∧
      pd.source = "DIA" ∧ pd.market_cap = 0 ∧ pd.change_24h = 0 := by
  refine ⟨{ price := 1, market_cap := 0, volume_24h := 0, change_24h := 0,
            last_updated := 0, source := "DIA" }, rfl, ?_⟩
  exact get_current_price_dia_fallback_fields .transportError
    (.success { price := some 1, volumeYesterdayUSD := none }) 0 _ rfl rfl

/-- Claim C3, counterexample: the claim says a price `≥ 1.0` renders
with four decimal places, in particular that price `1.2345` shows
`$1.2345`; the code formats every price with `:.6f`, so the message at
price `1.2345` is `$1.234500`, not `$1.2345`. -/
theorem format_price_message_not_four_decimals :
    format_price_message
      { price := 12345/10000, market_cap := 0, volume_24h := 0,
        change_24h := 0, last_updated := 0, source := "CoinGecko" }
      { change_amount := 0, change_percentage := 0, trend := "neutral" }
      = "$1.234500" ∧
    format_price_message
      { price := 12345/10000, market_cap := 0, volume_24h := 0,
        change_24h := 0, last_updated := 0, source := "CoinGecko" }
      { change_amount := 0, change_percentage := 0, trend := "neutral" }
      ≠ "$1.2345" := by
  have h1 : round ((12345/10000 : ℚ) * 1000000) = 1234500 := by
    norm_num [round_eq]
  have e : format_price_message
      { price := 12345/10000, market_cap := 0, volume_24h := 0,
        change_24h := 0, last_updated := 0, source := "CoinGecko" }
      { change_amount := 0, change_percentage := 0, trend := "neutral" }
      = "$1.234500" := by
    show "$" ++ formatFixed6 (12345/10000) = "$1.234500"
    rw [formatFixed6_eval _ 1234500 h1]
    decide
  exact ⟨e, by rw [e]; decide⟩

/-- Claim C3 as amended: `format_price_message` renders every price with
exactly six decimal places regardless of magnitude — the message is a
dollar sign, a sign, an integer part, a dot, and a six-character
fractional part; in particular price `0.850000` shows `$0.850000` and
price `1.2345` shows `$1.234500` (not `$1.2345`). -/
theorem format_price_message_six_decimals :
    (∀ (pd : PriceData) (cd : ChangeData),
      ∃ (sign ip : String) (f : ℕ),
        format_price_message pd cd
            = "$" ++ (sign ++ ip ++ "." ++ fracDigits6 f)
        ∧ (fracDigits6 f).length = 6) ∧
    format_price_message
      { price := 85/100, market_cap := 0, volume_24h := 0,
        change_24h := 0, last_updated := 0, source := "CoinGecko" }
      { change_amount := 0, change_percentage := 0, trend := "neutral" }
      = "$0.850000" ∧
    format_price_message
      { price := 12345/10000, market_cap := 0, volume_24h := 0,
        change_24h := 0, last_updated := 0, source := "CoinGecko" }
      { change_amount := 0, change_percentage := 0, trend := "neutral" }
      = "$1.234500" := by
  refine ⟨fun pd cd => ?_, ?_, ?_⟩
  · exact ⟨if round (pd.price * 1000000) < 0 then "-" else "",
      toString ((round (pd.price * 1000000)).natAbs / 1000000),
      (round (pd.price * 1000000)).natAbs % 1000000, rfl, rfl⟩
  · have h1 : round ((85/100 : ℚ) * 1000000) = 850000 := by
      norm_num [round_eq]
    show "$" ++ formatFixed6 (85/100) = "$0.850000"
    rw [formatFixed6_eval _ 850000 h1]
    decide
  · have h1 : round ((12345/10000 : ℚ) * 1000000) = 1234500 := by
      norm_num [round_eq]
    show "$" ++ formatFixed6 (12345/10000) = "$1.234500"
    rw [formatFixed6_eval _ 1234500 h1]
    decide

/-- Claim C9: the formatted message depends only on the price of the
snapshot: two calls whose snapshots agree on `price` return the same
string, whatever the other snapshot fields and the whole change dict
are. -/
theorem format_price_message_price_only
    (pdl pdr : PriceData) (cdl cdr : ChangeData)
    (hprice : pdl.price = pdr.price) :
    format_price_message pdl cdl = format_price_message pdr cdr := by
  simp [format_price_message, hprice]

/-- Witness for C9: two snapshots with price `1/2` but different market
caps, sources and trends format identically. -/
theorem format_price_message_price_only_witness :
    format_price_message
      { price := 1/2, market_cap := 5, volume_24h := 7, change_24h := -3,
        last_updated := 11, source := "CoinGecko" }
      { change_amount := 1, change_percentage := 50, trend := "up" }
    = format_price_message
      { price := 1/2, market_cap := 0, volume_24h := 0, change_24h := 0,
        last_updated := 0, source := "DIA" }
      { change_amount := -1, change_percentage := -50, trend := "down" } :=
  format_price_message_price_only _ _ _ _ rfl

/-- Claim C4: a cycle whose fetch fails or whose send fails leaves the
bot state (previous price and history) unchanged; `previous_price` is
updated, and a history entry appended, only on a cycle that returns
success — and then the new previous price is the fetched price and the
new observation is the last history entry. -/
theorem run_price_check_frame (st : BotState)
    (cg : FetchOutcome CoinGeckoBody) (dia : FetchOutcome DiaBody)
    (unixNow : ℤ) (send : String → Bool) (now : String) :
    ((run_price_check st cg dia unixNow send now).1 = false →
      (run_price_check st cg dia unixNow send now).2 = st) ∧
    (get_current_price cg dia unixNow = none →
      run_price_check st cg dia unixNow send now = (false, st)) ∧
    ((run_price_check st cg dia unixNow send now).1 = true →
      ∃ pd, get_current_price cg dia unixNow = some pd ∧
        send (format_price_message pd
          (calculate_price_change st.previous_price pd.price)) = true ∧
        (run_price_check st cg dia unixNow send now).2.previous_price
          = some pd.price ∧
        (run_price_check st cg dia unixNow send now).2.price_history.getLast?
          = some { timestamp := now, price := pd.price,
                   source := pd.source }) := by
  refine ⟨?_, ?_, ?_⟩
  · intro hfalse
    rcases h : get_current_price cg dia unixNow with _ | pd
    · rw [run_price_check_fetch_none st cg dia unixNow send now h]
    · cases hs : send (format_price_message pd
          (calculate_price_change st.previous_price pd.price)) with
      | false => rw [run_price_check_send_false st cg dia unixNow send now
          pd h hs]
      | true =>
        rw [run_price_check_send_true st cg dia unixNow send now pd _
          h hs rfl] at hfalse
        simp at hfalse
  · intro hnone
    exact run_price_check_fetch_none st cg dia unixNow send now hnone
  · intro htrue
    rcases h : get_current_price cg dia unixNow with _ | pd
    · rw [run_price_check_fetch_none st cg dia unixNow send now h] at htrue
      simp at htrue
    · cases hs : send (format_price_message pd
          (calculate_price_change st.previous_price pd.price)) with
      | false =>
        rw [run_price_check_send_false st cg dia unixNow send now pd
          h hs] at htrue
        simp at htrue
      | true =>
        refine ⟨pd, rfl, hs, ?_, ?_⟩
        · rw [run_price_check_send_true st cg dia unixNow send now pd _
            h hs rfl]
        · rw [run_price_check_send_true st cg dia unixNow send now pd _
            h hs rfl]
          exact (trim_append_spec st.price_history
            { timestamp := now, price := pd.price, source := pd.source }).1

/-- Witness for C4: with both sources failing, the cycle reports failure
and returns the state unchanged. -/
theorem run_price_check_frame_witness :
    run_price_check { previous_price := some 1, price_history := [] }
      .transportError .transportError 0 (fun _ => true) "t"
      = (false, { previous_price := some 1, price_history := [] }) :=
  (run_price_check_frame { previous_price := some 1, price_history := [] }
    .transportError .transportError 0 (fun _ => true) "t").2.1 rfl

/-- Claim C5: if the history holds at most 100 entries before a cycle,
it holds at most 100 after it; and on a successful cycle the new
observation is the last entry and the new history is a suffix of the
old history extended by that entry — eviction, when it happens, removes
oldest entries from the front (FIFO). -/
theorem run_price_check_history_bound (st : BotState)
    (cg : FetchOutcome CoinGeckoBody) (dia : FetchOutcome DiaBody)
    (unixNow : ℤ) (send : String → Bool) (now : String)
    (hbound : st.price_history.length ≤ 100) :
    ((run_price_check st cg dia unixNow send now).2.price_history.length
      ≤ 100) ∧
    (∀ pd, get_current_price cg dia unixNow = some pd →
      (run_price_check st cg dia unixNow send now).1 = true →
      ((run_price_check st cg dia unixNow send now).2.price_history.getLast?
        = some { timestamp := now, price := pd.price,
                 source := pd.source }) ∧
      List.IsSuffix
        (run_price_check st cg dia unixNow send now).2.price_history
        (st.price_history ++
          [{ timestamp := now, price := pd.price, source := pd.source }])) := by
  constructor
  · rcases h : get_current_price cg dia unixNow with _ | pd
    · rw [run_price_check_fetch_none st cg dia unixNow send now h]
      exact hbound
    · cases hs : send (format_price_message pd
          (calculate_price_change st.previous_price pd.price)) with
      | false =>
        rw [run_price_check_send_false st cg dia unixNow send now pd h hs]
        exact hbound
      | true =>
        rw [run_price_check_send_true st cg dia unixNow send now pd _
          h hs rfl]
        exact (trim_append_spec st.price_history
          { timestamp := now, price := pd.price,
            source := pd.source }).2.2 hbound
  · intro pd hfetch htrue
    cases hs : send (format_price_message pd
        (calculate_price_change st.previous_price pd.price)) with
    | false =>
      rw [run_price_check_send_false st cg dia unixNow send now pd
        hfetch hs] at htrue
      simp at htrue
    | true =>
      rw [run_price_check_send_true st cg dia unixNow send now pd _
        hfetch hs rfl]
      exact ⟨(trim_append_spec st.price_history
          { timestamp := now, price := pd.price, source := pd.source }).1,
        (trim_append_spec st.price_history
          { timestamp := now, price := pd.price, source := pd.source }).2.1⟩

/-- Witness for C5: from the empty history, a successful cycle on a DIA
snapshot keeps the bound and leaves the new observation as the last
entry. -/
theorem run_price_check_history_bound_witness :
    ((run_price_check { previous_price := none, price_history := [] }
        .transportError
        (.success { price := some 1, volumeYesterdayUSD := none }) 0
        (fun _ => true) "t").2.price_history.length ≤ 100) ∧
    ((run_price_check { previous_price := none, price_history := [] }
        .transportError
        (.success { price := some 1, volumeYesterdayUSD := none }) 0
        (fun _ => true) "t").2.price_history.getLast?
      = some { timestamp := "t", price := 1, source := "DIA" }) := by
  have h := run_price_check_history_bound
    { previous_price := none, price_history := [] } .transportError
    (.success { price := some 1, volumeYesterdayUSD := none }) 0
    (fun _ => true) "t" (by simp)
  refine ⟨h.1, ?_⟩
  have h2 := h.2 { price := 1, market_cap := 0, volume_24h := 0,
                   change_24h := 0, last_updated := 0, source := "DIA" }
    rfl rfl
  exact h2.1

/-- Claim C8: in single-run mode the process exits with status 0 exactly
when the cycle succeeds; and when either required environment variable
(`TG_TOKEN` or `TG_CHAT_ID`) is absent, it exits with status 1 having
performed no HTTP request, whatever the (never reached) cycle would
have done. -/
theorem main_exit_status (env : Env) (cycleOk : Bool) (n : ℕ) :
    ((env.tg_token = none ∨ env.tg_chat_id = none) →
      main_run env cycleOk n = (1, 0)) ∧
    (env.tg_token.isSome → env.tg_chat_id.isSome →
      ((main_run env cycleOk n).1 = 0 ↔ cycleOk = true) ∧
      (main_run env cycleOk n).2 = n) := by
  cases ht : env.tg_token with
  | none => cases hc : env.tg_chat_id <;> simp [main_run, ht]
  | some t =>
    cases hc : env.tg_chat_id with
    | none => simp [main_run, ht, hc]
    | some c => cases cycleOk <;> simp [main_run, ht, hc]

/-- Witness for C8: `TG_TOKEN` missing gives exit status 1 and zero HTTP
requests even for a cycle that would have succeeded with 3 requests. -/
theorem main_exit_status_witness :
    main_run { tg_token := none, tg_chat_id := some "c" } true 3 = (1, 0) :=
  (main_exit_status { tg_token := none, tg_chat_id := some "c" } true 3).1
    (Or.inl rfl)
